import Mathlib

/-!
Verification of the Authorization-Code-with-PKCE flow initiator and the
session event model of `solid-client-authn-js`
(`packages/core/src/login/oidc/oidcHandlers/AuthorizationCodeWithPkceOidcHandler.ts`
and the session event listener interface).

The TypeScript code is shallowly embedded: the pure guard and the helper
`booleanWithFallback` become Lean functions; the async `setupRedirectHandler`
becomes a state transformer over an explicit key/value storage model that also
records the trace of issued storage writes and redirect hand-offs, together
with the error outcome (`Option String`).  The overload lists of the
`ISessionEventListener` interface are embedded as lists of
(event-name type, listener type) pairs over a small syntax of TypeScript
types, with a denotation into Lean types used to reason about inhabitation.
-/

set_option autoImplicit false

namespace SolidAuth

/-! ## Data model of the flow initiator -/

/-- Issuer metadata as consumed by the handler: the source reads only
`issuerConfiguration.grantTypesSupported`, of TypeScript type
`string[] | undefined`. -/
structure IIssuerConfig where
  grantTypesSupported : Option (List String)
  deriving DecidableEq, Repr

/-- Login options, modelled from the spec's `LoginOptions` (§3: issuer
identifier, issuer capability descriptor, optional redirect URL, session
identifier, DPoP preference flag, keep-alive preference flag, optional custom
redirect handler) and from the fields the handler source actually reads.
The `IOidcOptions` declaration itself is not part of the provided source.
The issuer URL is modelled by its string form (the source only ever calls
`issuer.toString()`); the custom redirect handler is an opaque callback value
of type `H`, carried around but never inspected. -/
structure IOidcOptions (H : Type) where
  issuer : String
  sessionId : String
  issuerConfiguration : IIssuerConfig
  redirectUrl : Option String
  dpop : Option Bool
  keepAlive : Option Bool
  handleRedirect : Option H
  deriving DecidableEq, Repr

/-- JavaScript `Boolean(x)` on a value of type `boolean | undefined`:
`undefined` is falsy, a boolean is itself. -/
def jsBoolean (v : Option Bool) : Bool :=
  match v with
  | some b => b
  | none => false

/-- JavaScript `b.toString()` on a boolean. -/
def boolToString (b : Bool) : String :=
  if b then "true" else "false"

/-- Embeds `booleanWithFallback(value, fallback)` from the source: if the
value is an actual boolean it is returned, otherwise the fallback is. -/
def booleanWithFallback (value : Option Bool) (fallback : Bool) : Bool :=
  match value with
  | some b => b
  | none => fallback

/-- Embeds `parametersGuard(oidcLoginOptions)`: `grantTypesSupported` is
defined, contains `"authorization_code"` (`indexOf(...) > -1`), and
`redirectUrl` is defined. -/
def parametersGuard {H : Type} (oidcLoginOptions : IOidcOptions H) : Bool :=
  (match oidcLoginOptions.issuerConfiguration.grantTypesSupported with
   | some grantTypes => grantTypes.contains "authorization_code"
   | none => false)
  && oidcLoginOptions.redirectUrl.isSome

/-- Embeds `canHandle(oidcLoginOptions)`: an async method whose body simply
returns the guard; the promise resolves with the guard's value and can never
reject, which the `Except` codomain makes explicit. -/
def canHandle {H : Type} (oidcLoginOptions : IOidcOptions H) :
    Except String Bool :=
  Except.ok (parametersGuard oidcLoginOptions)

/-! ## Storage model

Modelled from the spec: `IStorageUtility` is not part of the provided source;
§6 specifies `setForUser(key: string, record: mapping<string,string>) ->
Promise<void>` keyed by an opaque string, and §5 specifies that a later write
to the same key wins with no conflict detection.  Storage is an association
list with the most recent write in front; lookup returns the most recent
record written for a key. -/

/-- A stored record: a string-to-string mapping. -/
abbrev Record := List (String × String)

/-- The durable key/value storage: newest write first. -/
abbrev Storage := List (String × Record)

/-- Modelled from the spec: `setForUser(key, record)` durably associates the
record to the key; the most recent write for a key shadows older ones. -/
def setForUser (s : Storage) (key : String) (record : Record) : Storage :=
  (key, record) :: s

/-- The record most recently written for a key, if any. -/
def lookupRecord : Storage → String → Option Record
  | [], _ => none
  | (k, r) :: rest, key => if k = key then some r else lookupRecord rest key

/-- The value of a field inside a record, if present. -/
def lookupField : Record → String → Option String
  | [], _ => none
  | (k, v) :: rest, f => if k = f then some v else lookupField rest f

/-- Convenience composition of record lookup and field lookup. -/
def recordField (r : Option Record) (f : String) : Option String :=
  match r with
  | some entries => lookupField entries f
  | none => none

/-! ## The flow setup -/

/-- One invocation of the external redirector:
`redirect(targetUrl, { handleRedirect })`. -/
structure RedirectCall (H : Type) where
  targetUrl : String
  handleRedirect : Option H
  deriving DecidableEq, Repr

/-- Observable outcome of one `setupRedirectHandler` call: the final storage,
the `setForUser` calls issued (key and record, in source order), the
redirector invocations, and the error the returned promise rejects with, if
any. -/
structure SetupResult (H : Type) where
  storage : Storage
  writesIssued : List (String × Record)
  redirects : List (RedirectCall H)
  error : Option String
  deriving DecidableEq, Repr

/-- Embeds `setupRedirectHandler({ oidcLoginOptions, state, codeVerifier,
targetUrl })`.  The guard is re-checked first and failure throws
synchronously, before any storage write.  Otherwise both `setForUser` calls
are issued (the `Promise.all` array is built eagerly) and awaited together;
`write1Fails` / `write2Fails` say whether the respective collaborator write
rejects, in which case `Promise.all` rejects, the rejection propagates out of
the method, and the redirector is never reached.  Only when both writes
succeed is `redirector.redirect(targetUrl, { handleRedirect })` invoked. -/
def setupRedirectHandler {H : Type} (storage : Storage)
    (oidcLoginOptions : IOidcOptions H)
    (state codeVerifier targetUrl : String)
    (write1Fails write2Fails : Bool) : SetupResult H :=
  if parametersGuard oidcLoginOptions then
    let record1 : Record := [("sessionId", oidcLoginOptions.sessionId)]
    let record2 : Record :=
      [("codeVerifier", codeVerifier),
       ("issuer", oidcLoginOptions.issuer),
       ("redirectUrl", oidcLoginOptions.redirectUrl.getD ""),
       ("dpop", boolToString (jsBoolean oidcLoginOptions.dpop)),
       ("keepAlive",
        boolToString (booleanWithFallback oidcLoginOptions.keepAlive true))]
    let s1 := if write1Fails then storage else setForUser storage state record1
    let s2 :=
      if write2Fails then s1
      else setForUser s1 oidcLoginOptions.sessionId record2
    if write1Fails || write2Fails then
      { storage := s2
        writesIssued := [(state, record1), (oidcLoginOptions.sessionId, record2)]
        redirects := []
        error := some "storage write rejected" }
    else
      { storage := s2
        writesIssued := [(state, record1), (oidcLoginOptions.sessionId, record2)]
        redirects := [{ targetUrl := targetUrl
                        handleRedirect := oidcLoginOptions.handleRedirect }]
        error := none }
  else
    { storage := storage
      writesIssued := []
      redirects := []
      error := some "The authorization code grant requires a redirectUrl." }

/-- The spec's applicability condition, stated in the spec's own words (§4.1):
the issuer's advertised grant types include authorization-code and a redirect
URL is present in the options.  Used to compare `canHandle` against the
spec. -/
def specApplicable {H : Type} (o : IOidcOptions H) : Prop :=
  (∃ grantTypes, o.issuerConfiguration.grantTypesSupported = some grantTypes ∧
    "authorization_code" ∈ grantTypes)
  ∧ o.redirectUrl ≠ none

/-- A concrete applicable options value, taken from the spec's §8 concrete
scenario; used by witnesses and counterexamples. -/
def demoOptions : IOidcOptions String :=
  { issuer := "https://idp.example"
    sessionId := "s1"
    issuerConfiguration := { grantTypesSupported := some ["authorization_code"] }
    redirectUrl := some "https://app.example/cb"
    dpop := some true
    keepAlive := none
    handleRedirect := none }

/-! ## Session event model

Embeds the `ISessionEventListener` interface: the ten named channels, the
per-channel listener signatures (`LOGIN_ARGS` … `AUTH_STATE_ARGS`), the
fallback signature `FALLBACK_ARGS`, and the per-operation overload lists for
`on`, `addListener`, `once`, `off` and `removeListener`, transcribed in
source order. -/

/-- The ten named event channels of the session event model. -/
inductive EventChannel
  | LOGIN
  | LOGOUT
  | SESSION_EXPIRED
  | SESSION_RESTORED
  | ERROR
  | SESSION_EXTENDED
  | TIMEOUT_SET
  | NEW_REFRESH_TOKEN
  | NEW_TOKENS
  | AUTHORIZATION_REQUEST
  deriving DecidableEq, Repr

/-- The event-name type of one overload: either the literal-string type of one
named channel (`typeof EVENTS.X`) or the arbitrary event-name type of the
fallback overload (`Parameters<EventEmitter["on"]>[0]`). -/
inductive OverloadName
  | chan : EventChannel → OverloadName
  | anyEventName : OverloadName
  deriving DecidableEq, Repr

/-- A small syntax of the TypeScript types occurring in the listener
signatures.  `optional t` is an optional trailing parameter (`x?: t`);
`funN` are function types of the given arity. -/
inductive TsType
  | void
  | boolean
  | string
  | number
  | null
  | unknown
  | errorObject
  | never
  | sessionTokenSet
  | authorizationRequestState
  | union : TsType → TsType → TsType
  | optional : TsType → TsType
  | fun0 : TsType → TsType
  | fun1 : TsType → TsType → TsType
  | fun2 : TsType → TsType → TsType → TsType
  deriving DecidableEq, Repr

/-- Modelled from the spec: the `KeyPair` type from `dpopUtils` is not part of
the provided source; the glossary describes it as the DPoP key material (a
private key held by the client, with its public counterpart). -/
structure KeyPair where
  privateKey : String
  publicKey : String
  deriving DecidableEq, Repr

/-- Embeds the `AuthorizationRequestState` type: the state preserved during an
authorization request and sent to the client. -/
structure AuthorizationRequestState where
  codeVerifier : String
  state : String
  issuer : String
  redirectUrl : String
  dpopBound : Bool
  clientId : String
  deriving DecidableEq, Repr

/-- Embeds the `SessionTokenSet` type: a set of tokens to be passed to the
client.  The TypeScript `number` timestamp is modelled as an integer. -/
structure SessionTokenSet where
  accessToken : Option String
  idToken : Option String
  webId : Option String
  refreshToken : Option String
  expiresAt : Option Int
  dpopKey : Option KeyPair
  issuer : String
  clientId : String
  deriving DecidableEq, Repr

/-- A JavaScript `Error` value, reduced to its message. -/
structure JsError where
  message : String
  deriving DecidableEq, Repr

/-- Denotation of the type syntax into Lean types.  Only inhabitation matters
for the claims about `never`; `unknown` (the inhabited top type) and `null`
(a singleton) are mapped to canonical inhabited types. -/
def TsType.denote : TsType → Type
  | .void => Unit
  | .boolean => Bool
  | .string => String
  | .number => Int
  | .null => Unit
  | .unknown => Unit
  | .errorObject => JsError
  | .never => Empty
  | .sessionTokenSet => SessionTokenSet
  | .authorizationRequestState => AuthorizationRequestState
  | .union a b => Sum a.denote b.denote
  | .optional t => Option t.denote
  | .fun0 r => Unit → r.denote
  | .fun1 a r => a.denote → r.denote
  | .fun2 a b r => a.denote → b.denote → r.denote

/-- `LOGIN_ARGS`: the login channel with listener `() => void`. -/
def LOGIN_ARGS : OverloadName × TsType :=
  (.chan .LOGIN, .fun0 .void)

/-- `LOGOUT_ARGS`: the logout channel with listener `() => void`. -/
def LOGOUT_ARGS : OverloadName × TsType :=
  (.chan .LOGOUT, .fun0 .void)

/-- `SESSION_EXPIRED_ARGS`: the session-expired channel with listener
`() => void`. -/
def SESSION_EXPIRED_ARGS : OverloadName × TsType :=
  (.chan .SESSION_EXPIRED, .fun0 .void)

/-- `SESSION_RESTORED_ARGS`: the session-restored channel with listener
`(currentUrl: string) => unknown`. -/
def SESSION_RESTORED_ARGS : OverloadName × TsType :=
  (.chan .SESSION_RESTORED, .fun1 .string .unknown)

/-- `ERROR_ARGS`: the error channel with listener
`(error: string | null, errorDescription?: string | Error | null) =>
unknown`. -/
def ERROR_ARGS : OverloadName × TsType :=
  (.chan .ERROR,
   .fun2 (.union .string .null)
     (.optional (.union (.union .string .errorObject) .null)) .unknown)

/-- `SESSION_EXTENDED_ARGS`: the session-extended channel with listener
`(expiresIn: number) => void`. -/
def SESSION_EXTENDED_ARGS : OverloadName × TsType :=
  (.chan .SESSION_EXTENDED, .fun1 .number .void)

/-- `TIMEOUT_SET_ARGS`: the timeout-set channel with listener
`(timeoutId: number) => void`. -/
def TIMEOUT_SET_ARGS : OverloadName × TsType :=
  (.chan .TIMEOUT_SET, .fun1 .number .void)

/-- `NEW_REFRESH_TOKEN_ARGS` (deprecated): the new-refresh-token channel with
listener `(newToken: string) => void`. -/
def NEW_REFRESH_TOKEN_ARGS : OverloadName × TsType :=
  (.chan .NEW_REFRESH_TOKEN, .fun1 .string .void)

/-- `NEW_TOKENS_ARGS`: the new-tokens channel with listener
`(tokenSet: SessionTokenSet) => void`. -/
def NEW_TOKENS_ARGS : OverloadName × TsType :=
  (.chan .NEW_TOKENS, .fun1 .sessionTokenSet .void)

/-- `AUTH_STATE_ARGS`: the authorization-request channel with listener
`(authorizationRequestState: AuthorizationRequestState) => void`. -/
def AUTH_STATE_ARGS : OverloadName × TsType :=
  (.chan .AUTHORIZATION_REQUEST, .fun1 .authorizationRequestState .void)

/-- `FALLBACK_ARGS`: an arbitrary event name with the `never` listener type,
preventing use of a session event emitter as an arbitrary `EventEmitter`. -/
def FALLBACK_ARGS : OverloadName × TsType :=
  (.anyEventName, .never)

/-- The `on` overloads, in source order. -/
def onOverloads : List (OverloadName × TsType) :=
  [LOGIN_ARGS, LOGOUT_ARGS, SESSION_EXPIRED_ARGS, SESSION_RESTORED_ARGS,
   ERROR_ARGS, SESSION_EXTENDED_ARGS, TIMEOUT_SET_ARGS,
   NEW_REFRESH_TOKEN_ARGS, NEW_TOKENS_ARGS, AUTH_STATE_ARGS, FALLBACK_ARGS]

/-- The `addListener` overloads, in source order. -/
def addListenerOverloads : List (OverloadName × TsType) :=
  [LOGIN_ARGS, LOGOUT_ARGS, SESSION_EXPIRED_ARGS, SESSION_RESTORED_ARGS,
   ERROR_ARGS, SESSION_EXTENDED_ARGS, TIMEOUT_SET_ARGS,
   NEW_REFRESH_TOKEN_ARGS, NEW_TOKENS_ARGS, AUTH_STATE_ARGS, FALLBACK_ARGS]

/-- The `once` overloads, in source order. -/
def onceOverloads : List (OverloadName × TsType) :=
  [LOGIN_ARGS, LOGOUT_ARGS, SESSION_EXPIRED_ARGS, SESSION_RESTORED_ARGS,
   ERROR_ARGS, SESSION_EXTENDED_ARGS, TIMEOUT_SET_ARGS,
   NEW_REFRESH_TOKEN_ARGS, NEW_TOKENS_ARGS, AUTH_STATE_ARGS, FALLBACK_ARGS]

/-- The `off` overloads, in source order. -/
def offOverloads : List (OverloadName × TsType) :=
  [LOGIN_ARGS, LOGOUT_ARGS, SESSION_EXPIRED_ARGS, SESSION_RESTORED_ARGS,
   ERROR_ARGS, SESSION_EXTENDED_ARGS, TIMEOUT_SET_ARGS,
   NEW_REFRESH_TOKEN_ARGS, NEW_TOKENS_ARGS, AUTH_STATE_ARGS, FALLBACK_ARGS]

/-- The `removeListener` overloads, in source order. -/
def removeListenerOverloads : List (OverloadName × TsType) :=
  [LOGIN_ARGS, LOGOUT_ARGS, SESSION_EXPIRED_ARGS, SESSION_RESTORED_ARGS,
   ERROR_ARGS, SESSION_EXTENDED_ARGS, TIMEOUT_SET_ARGS,
   NEW_REFRESH_TOKEN_ARGS, NEW_TOKENS_ARGS, AUTH_STATE_ARGS, FALLBACK_ARGS]

/-- The single `emit` overload of the interface:
`emit(eventName: never, ...args: never): boolean`. -/
structure EmitSig where
  eventName : TsType
  args : TsType
  returnTy : TsType
  deriving DecidableEq, Repr

/-- Embeds the fallback `emit` declaration, which overrides the
`EventEmitter` behavior with `never`-typed parameters. -/
def emitSignature : EmitSig :=
  { eventName := .never, args := .never, returnTy := .boolean }

/-- A non-applicable options value: same as the demo scenario but with no
redirect URL. -/
def demoBadOptions : IOidcOptions String :=
  { demoOptions with redirectUrl := none }

/-! ## Helper lemmas -/

/-- The boolean guard agrees with the spec's applicability condition. -/
theorem parametersGuard_iff_specApplicable {H : Type} (o : IOidcOptions H) :
    parametersGuard o = true ↔ specApplicable o := by
  unfold parametersGuard specApplicable
  cases h : o.issuerConfiguration.grantTypesSupported with
  | none => simp
  | some grantTypes =>
      simp [List.contains, List.elem_iff, Option.isSome_iff_ne_none]

/-- A true guard forces the redirect URL to be present. -/
theorem parametersGuard_redirectUrl_isSome {H : Type} (o : IOidcOptions H)
    (h : parametersGuard o = true) : o.redirectUrl.isSome = true := by
  unfold parametersGuard at h
  exact (Bool.and_eq_true _ _ ▸ h).2

/-! ## Claim theorems -/

/-- C1: for every options value accepted by the applicability predicate
(distinct OAuth state and session keys), after `setupRedirectHandler`
resolves, storage holds at key `state` a record whose `sessionId` field is
`options.sessionId`, and at key `options.sessionId` a record with the given
`codeVerifier`, the stringified issuer, and a `redirectUrl` equal to
`options.redirectUrl`. -/
theorem setup_persists_correlation {H : Type} (storage : Storage)
    (o : IOidcOptions H) (state codeVerifier targetUrl : String)
    (hguard : parametersGuard o = true) (hne : state ≠ o.sessionId) :
    (setupRedirectHandler storage o state codeVerifier targetUrl false false).error
      = none ∧
    recordField
      (lookupRecord
        (setupRedirectHandler storage o state codeVerifier targetUrl false false).storage
        state) "sessionId" = some o.sessionId ∧
    recordField
      (lookupRecord
        (setupRedirectHandler storage o state codeVerifier targetUrl false false).storage
        o.sessionId) "codeVerifier" = some codeVerifier ∧
    recordField
      (lookupRecord
        (setupRedirectHandler storage o state codeVerifier targetUrl false false).storage
        o.sessionId) "issuer" = some o.issuer ∧
    recordField
      (lookupRecord
        (setupRedirectHandler storage o state codeVerifier targetUrl false false).storage
        o.sessionId) "redirectUrl" = o.redirectUrl := by
  obtain ⟨url, hurl⟩ := Option.isSome_iff_exists.mp
    (parametersGuard_redirectUrl_isSome o hguard)
  simp [setupRedirectHandler, hguard, setForUser, lookupRecord, recordField,
    lookupField, hne.symm, hurl]

/-- C1 witness: the spec's §8 concrete scenario. -/
theorem setup_persists_correlation_witness :
    (setupRedirectHandler [] demoOptions "xyz" "verifier123"
      "https://idp.example/authorize" false false).error = none ∧
    recordField
      (lookupRecord
        (setupRedirectHandler [] demoOptions "xyz" "verifier123"
          "https://idp.example/authorize" false false).storage "xyz")
      "sessionId" = some "s1" ∧
    recordField
      (lookupRecord
        (setupRedirectHandler [] demoOptions "xyz" "verifier123"
          "https://idp.example/authorize" false false).storage "s1")
      "codeVerifier" = some "verifier123" ∧
    recordField
      (lookupRecord
        (setupRedirectHandler [] demoOptions "xyz" "verifier123"
          "https://idp.example/authorize" false false).storage "s1")
      "issuer" = some "https://idp.example" ∧
    recordField
      (lookupRecord
        (setupRedirectHandler [] demoOptions "xyz" "verifier123"
          "https://idp.example/authorize" false false).storage "s1")
      "redirectUrl" = some "https://app.example/cb" :=
  setup_persists_correlation [] demoOptions "xyz" "verifier123"
    "https://idp.example/authorize" (by decide) (by decide)

/-- C2: `canHandle` resolves with true exactly when the issuer's advertised
grant types include authorization-code and a redirect URL is present, and
resolves with false (never rejecting) otherwise. -/
theorem canHandle_iff_applicable {H : Type} (o : IOidcOptions H) :
    (canHandle o = Except.ok true ↔ specApplicable o) ∧
    (canHandle o = Except.ok false ↔ ¬ specApplicable o) := by
  constructor
  · rw [← parametersGuard_iff_specApplicable]
    unfold canHandle
    exact ⟨fun h => by simpa using h, fun h => by simp [h]⟩
  · rw [← parametersGuard_iff_specApplicable]
    unfold canHandle
    constructor
    · intro h hc
      rw [hc] at h
      simp at h
    · intro h
      simp [Bool.not_eq_true] at h
      simp [h]

/-- C2 witness: the applicable demo options and the inapplicable variant. -/
theorem canHandle_iff_applicable_witness :
    ((canHandle demoOptions = Except.ok true ↔ specApplicable demoOptions) ∧
      (canHandle demoOptions = Except.ok false ↔ ¬ specApplicable demoOptions)) ∧
    ((canHandle demoBadOptions = Except.ok true ↔ specApplicable demoBadOptions) ∧
      (canHandle demoBadOptions = Except.ok false ↔
        ¬ specApplicable demoBadOptions)) :=
  ⟨canHandle_iff_applicable demoOptions, canHandle_iff_applicable demoBadOptions⟩

/-- C3: `setupRedirectHandler` rejects exactly when the guard is false (for
well-behaved storage), and on a false guard it throws synchronously: no
write is issued, storage is unchanged, and the redirector is never invoked,
whatever the collaborators would have done. -/
theorem setup_error_iff_inapplicable {H : Type} (storage : Storage)
    (o : IOidcOptions H) (state codeVerifier targetUrl : String) :
    ((setupRedirectHandler storage o state codeVerifier targetUrl false false).error.isSome
        = true ↔ parametersGuard o = false) ∧
    (parametersGuard o = false → ∀ write1Fails write2Fails : Bool,
      (setupRedirectHandler storage o state codeVerifier targetUrl write1Fails write2Fails).storage
          = storage ∧
      (setupRedirectHandler storage o state codeVerifier targetUrl write1Fails write2Fails).writesIssued
          = [] ∧
      (setupRedirectHandler storage o state codeVerifier targetUrl write1Fails write2Fails).redirects
          = [] ∧
      (setupRedirectHandler storage o state codeVerifier targetUrl write1Fails write2Fails).error
          = some "The authorization code grant requires a redirectUrl.") := by
  cases hg : parametersGuard o <;> simp [setupRedirectHandler, hg]

/-- C3 witness: inapplicable options (no redirect URL) leave storage
untouched and never reach the redirector. -/
theorem setup_error_iff_inapplicable_witness :
    ((setupRedirectHandler [] demoBadOptions "xyz" "verifier123" "t" false false).error.isSome
        = true ↔ parametersGuard demoBadOptions = false) ∧
    (parametersGuard demoBadOptions = false → ∀ write1Fails write2Fails : Bool,
      (setupRedirectHandler [] demoBadOptions "xyz" "verifier123" "t" write1Fails write2Fails).storage
          = [] ∧
      (setupRedirectHandler [] demoBadOptions "xyz" "verifier123" "t" write1Fails write2Fails).writesIssued
          = [] ∧
      (setupRedirectHandler [] demoBadOptions "xyz" "verifier123" "t" write1Fails write2Fails).redirects
          = [] ∧
      (setupRedirectHandler [] demoBadOptions "xyz" "verifier123" "t" write1Fails write2Fails).error
          = some "The authorization code grant requires a redirectUrl.") :=
  setup_error_iff_inapplicable [] demoBadOptions "xyz" "verifier123" "t"

/-- C4: the stored `keepAlive` field is the string form of
`booleanWithFallback(keepAlive, true)`: `true` when unspecified, `false`
when explicitly false, `true` when explicitly true. -/
theorem keepAlive_stored_with_default {H : Type} (storage : Storage)
    (o : IOidcOptions H) (state codeVerifier targetUrl : String)
    (hguard : parametersGuard o = true) :
    recordField
      (lookupRecord
        (setupRedirectHandler storage o state codeVerifier targetUrl false false).storage
        o.sessionId) "keepAlive"
      = some (boolToString (booleanWithFallback o.keepAlive true)) ∧
    boolToString (booleanWithFallback none true) = "true" ∧
    boolToString (booleanWithFallback (some false) true) = "false" ∧
    boolToString (booleanWithFallback (some true) true) = "true" := by
  refine ⟨?_, rfl, rfl, rfl⟩
  simp [setupRedirectHandler, hguard, setForUser, lookupRecord, recordField,
    lookupField]

/-- C4 witness: the demo options leave `keepAlive` unspecified and the
stored value is the string form of true. -/
theorem keepAlive_stored_with_default_witness :
    recordField
      (lookupRecord
        (setupRedirectHandler [] demoOptions "xyz" "verifier123" "t" false false).storage
        "s1") "keepAlive"
      = some (boolToString (booleanWithFallback demoOptions.keepAlive true)) ∧
    boolToString (booleanWithFallback none true) = "true" ∧
    boolToString (booleanWithFallback (some false) true) = "false" ∧
    boolToString (booleanWithFallback (some true) true) = "true" :=
  keepAlive_stored_with_default [] demoOptions "xyz" "verifier123" "t" (by decide)

/-- C5 counterexample: on the spec's own concrete scenario the call succeeds
but the session record has no `dpopBound` field at all; the DPoP preference
is stored under the field name `dpop` instead. -/
theorem dpop_field_name_counterexample :
    (setupRedirectHandler [] demoOptions "xyz" "verifier123" "t" false false).error
      = none ∧
    recordField
      (lookupRecord
        (setupRedirectHandler [] demoOptions "xyz" "verifier123" "t" false false).storage
        "s1") "dpopBound" = none ∧
    recordField
      (lookupRecord
        (setupRedirectHandler [] demoOptions "xyz" "verifier123" "t" false false).storage
        "s1") "dpop" = some "true" := by
  decide

/-- C5 (amended): the session correlation record stores the DPoP preference
under the field name `dpop`, as a stringified boolean. -/
theorem dpop_stored_stringified {H : Type} (storage : Storage)
    (o : IOidcOptions H) (state codeVerifier targetUrl : String)
    (hguard : parametersGuard o = true) :
    recordField
      (lookupRecord
        (setupRedirectHandler storage o state codeVerifier targetUrl false false).storage
        o.sessionId) "dpop"
      = some (boolToString (jsBoolean o.dpop)) := by
  simp [setupRedirectHandler, hguard, setForUser, lookupRecord, recordField,
    lookupField]

/-- C5 (amended) witness: the demo options request DPoP and the stored value
is the string form of true. -/
theorem dpop_stored_stringified_witness :
    recordField
      (lookupRecord
        (setupRedirectHandler [] demoOptions "xyz" "verifier123" "t" false false).storage
        "s1") "dpop" = some (boolToString (jsBoolean demoOptions.dpop)) :=
  dpop_stored_stringified [] demoOptions "xyz" "verifier123" "t" (by decide)

/-- C6 counterexample: with applicable options and a failing second write,
the redirector is never invoked and the call rejects — the redirect is not
unconditional. -/
theorem redirect_not_unconditional_counterexample :
    parametersGuard demoOptions = true ∧
    (setupRedirectHandler [] demoOptions "xyz" "verifier123" "t" false true).redirects
      = [] ∧
    (setupRedirectHandler [] demoOptions "xyz" "verifier123" "t" false true).error.isSome
      = true := by
  decide

/-- C6 (amended): both writes are always issued, but if either write fails
the rejection propagates and the redirect hand-off does not occur; the
redirect happens exactly when both writes succeed. -/
theorem write_failure_blocks_redirect {H : Type} (storage : Storage)
    (o : IOidcOptions H) (state codeVerifier targetUrl : String)
    (write1Fails write2Fails : Bool)
    (hguard : parametersGuard o = true) :
    ((setupRedirectHandler storage o state codeVerifier targetUrl write1Fails write2Fails).redirects
        = [] ↔ (write1Fails = true ∨ write2Fails = true)) ∧
    (setupRedirectHandler storage o state codeVerifier targetUrl write1Fails write2Fails).error.isSome
        = (write1Fails || write2Fails) ∧
    ((setupRedirectHandler storage o state codeVerifier targetUrl write1Fails write2Fails).writesIssued).length
        = 2 := by
  cases write1Fails <;> cases write2Fails <;>
    simp [setupRedirectHandler, hguard]

/-- C6 (amended) witness: a failing first write blocks the redirect on the
demo scenario. -/
theorem write_failure_blocks_redirect_witness :
    ((setupRedirectHandler [] demoOptions "xyz" "verifier123" "t" true false).redirects
        = [] ↔ (true = true ∨ false = true)) ∧
    (setupRedirectHandler [] demoOptions "xyz" "verifier123" "t" true false).error.isSome
        = (true || false) ∧
    ((setupRedirectHandler [] demoOptions "xyz" "verifier123" "t" true false).writesIssued).length
        = 2 :=
  write_failure_blocks_redirect [] demoOptions "xyz" "verifier123" "t" true false
    (by decide)

/-- C7: on a successful call the redirector is invoked exactly once, with the
caller's target URL and `handleRedirect` option unchanged, and only after
both storage writes (keyed by the state and the session identifier) were
issued and completed without error. -/
theorem redirect_exactly_once {H : Type} (storage : Storage)
    (o : IOidcOptions H) (state codeVerifier targetUrl : String)
    (hguard : parametersGuard o = true) :
    (setupRedirectHandler storage o state codeVerifier targetUrl false false).redirects
      = [{ targetUrl := targetUrl, handleRedirect := o.handleRedirect }] ∧
    ((setupRedirectHandler storage o state codeVerifier targetUrl false false).writesIssued).map
        Prod.fst = [state, o.sessionId] ∧
    (setupRedirectHandler storage o state codeVerifier targetUrl false false).error
      = none := by
  simp [setupRedirectHandler, hguard]

/-- C7 witness: the demo scenario hands off exactly one redirect with the
target URL unchanged. -/
theorem redirect_exactly_once_witness :
    (setupRedirectHandler [] demoOptions "xyz" "verifier123"
      "https://idp.example/authorize" false false).redirects
      = [{ targetUrl := "https://idp.example/authorize"
           handleRedirect := demoOptions.handleRedirect }] ∧
    ((setupRedirectHandler [] demoOptions "xyz" "verifier123"
      "https://idp.example/authorize" false false).writesIssued).map Prod.fst
      = ["xyz", "s1"] ∧
    (setupRedirectHandler [] demoOptions "xyz" "verifier123"
      "https://idp.example/authorize" false false).error = none :=
  redirect_exactly_once [] demoOptions "xyz" "verifier123"
    "https://idp.example/authorize" (by decide)

/-- C8: `on` and `addListener` expose exactly the same
channel-name/listener-signature pairs, `off` and `removeListener` expose
exactly the same pairs, `once` pairs as `on`, and the ten named channels are
each covered exactly once (followed by the fallback). -/
theorem registration_pairings_agree :
    onOverloads = addListenerOverloads ∧
    offOverloads = removeListenerOverloads ∧
    onceOverloads = onOverloads ∧
    onOverloads.map Prod.fst =
      [.chan .LOGIN, .chan .LOGOUT, .chan .SESSION_EXPIRED,
       .chan .SESSION_RESTORED, .chan .ERROR, .chan .SESSION_EXTENDED,
       .chan .TIMEOUT_SET, .chan .NEW_REFRESH_TOKEN, .chan .NEW_TOKENS,
       .chan .AUTHORIZATION_REQUEST, .anyEventName] :=
  ⟨rfl, rfl, rfl, rfl⟩

/-- C9: in every registration operation the only overload accepting an
arbitrary event name is the fallback, whose listener type is `never`; that
type has no inhabitant, so no real listener can be registered against an
unlisted channel name through the typed interface. -/
theorem fallback_listener_unsatisfiable :
    (∀ sig ∈ onOverloads ++ addListenerOverloads ++ onceOverloads ++
        offOverloads ++ removeListenerOverloads,
      sig.1 = OverloadName.anyEventName → sig.2 = TsType.never) ∧
    FALLBACK_ARGS ∈ onOverloads ∧
    IsEmpty (TsType.denote TsType.never) := by
  refine ⟨by decide, by decide, ?_⟩
  exact ⟨fun x => nomatch x⟩

/-- C10: the `emit` overload types both the event name and the argument list
as `never`, and `never` denotes an uninhabited type, so no typed call to
`emit` is possible for any channel name and argument list. -/
theorem emit_parameters_uninhabited :
    emitSignature.eventName = TsType.never ∧
    emitSignature.args = TsType.never ∧
    IsEmpty (TsType.denote emitSignature.eventName) ∧
    IsEmpty (TsType.denote emitSignature.args) := by
  refine ⟨rfl, rfl, ?_, ?_⟩ <;> exact ⟨fun x => nomatch x⟩

end SolidAuth
